import Mathlib

/-!
Verification of the coinglass-mcp core: the transport client
(`src/coinglass_mcp/client.py`) and the access gate
(`src/coinglass_mcp/server.py` helpers over the static tables of
`src/coinglass_mcp/config.py`), shallowly embedded in Lean.
-/

set_option autoImplicit false

namespace CoinGlass

/-- A JSON-compatible Python value, as handled by `response.json()` and the
parameter bags.  Python `None` is `Json.null`. -/
inductive Json where
  | null : Json
  | bool (b : Bool) : Json
  | num (n : Int) : Json
  | str (s : String) : Json
  | arr (xs : List Json) : Json
  | obj (fs : List (String × Json)) : Json

/-- Python `v is None`. -/
def isNone : Json → Bool
  | Json.null => true
  | _ => false

/-- Python `dict.get(k)`: first binding of `k`, if any (keys of a Python dict
are unique, so a first-match lookup is faithful). -/
def lookup {α : Type} : List (String × α) → String → Option α
  | [], _ => none
  | (k2, v) :: rest, k => if k2 = k then some v else lookup rest k

/-- A single-quote character, used by the Python `repr` of strings. -/
def squote : String := String.singleton (Char.ofNat 39)

mutual

/-- Python `str()` applied to a JSON-compatible value (used by the f-string
`f"API error: {data.get('msg', 'Unknown error')}"` in `client.py`). -/
def pyStr : Json → String
  | Json.str s => s
  | j => pyRepr j

/-- Python `repr()` of a JSON-compatible value. -/
def pyRepr : Json → String
  | Json.null => "None"
  | Json.bool true => "True"
  | Json.bool false => "False"
  | Json.num n => toString n
  | Json.str s => squote ++ s ++ squote
  | Json.arr xs => "[" ++ String.intercalate ", " (pyReprList xs) ++ "]"
  | Json.obj fs => "\x7b" ++ String.intercalate ", " (pyReprFields fs) ++ "\x7d"

def pyReprList : List Json → List String
  | [] => []
  | j :: rest => pyRepr j :: pyReprList rest

def pyReprFields : List (String × Json) → List String
  | [] => []
  | (k, v) :: rest => (squote ++ k ++ squote ++ ": " ++ pyRepr v) :: pyReprFields rest

end

/-- The exceptions that can travel through `CoinGlassClient.request`:
the three typed errors declared in `client.py`, the two retryable
`httpx` transport exceptions, `httpx.HTTPStatusError` (from
`raise_for_status`), and `tenacity.RetryError` (raised by the `@retry`
decorator on exhaustion, since `reraise=True` is not set). -/
inductive Exc where
  | timeoutException : Exc
  | connectError : Exc
  | httpStatusError (status : Nat) : Exc
  | rateLimitError (msg : String) : Exc
  | planLimitError (msg : String) : Exc
  | apiError (msg : String) : Exc
  | retryError (last : Exc) : Exc
  deriving DecidableEq

/-- The exception class (kind) of an error, forgetting its payload:
two errors are "the same kind" exactly when they are instances of the
same Python exception class. -/
inductive ExcKind where
  | timeout : ExcKind
  | connect : ExcKind
  | httpStatus : ExcKind
  | rateLimit : ExcKind
  | planLimit : ExcKind
  | api : ExcKind
  | retryWrap : ExcKind
  deriving DecidableEq

/-- Maps each exception to its class. -/
def Exc.kind : Exc → ExcKind
  | Exc.timeoutException => ExcKind.timeout
  | Exc.connectError => ExcKind.connect
  | Exc.httpStatusError _ => ExcKind.httpStatus
  | Exc.rateLimitError _ => ExcKind.rateLimit
  | Exc.planLimitError _ => ExcKind.planLimit
  | Exc.apiError _ => ExcKind.api
  | Exc.retryError _ => ExcKind.retryWrap

/-- `_is_retryable` from `client.py` lines 35-43: timeouts, connection
errors, and `HTTPStatusError` with a 5xx status are retryable; everything
else (including the three typed errors and `RetryError`) is not. -/
def is_retryable : Exc → Bool
  | Exc.timeoutException => true
  | Exc.connectError => true
  | Exc.httpStatusError status => 500 ≤ status && status < 600
  | _ => false

/-- The outcome of one `await self.http.get(...)` call: either a
transport-level exception, or an HTTP response with a status code and a
JSON-object body. -/
inductive HttpResult where
  | exc (e : Exc) : HttpResult
  | resp (status : Nat) (body : List (String × Json)) : HttpResult

/-- `data.get('msg', 'Unknown error')` rendered by the f-string in
`client.py` line 106. -/
def msgOf (body : List (String × Json)) : String :=
  match lookup body "msg" with
  | some j => pyStr j
  | none => "Unknown error"

/-- Python `data.get("code") != "0"`, negated: the looked-up value equals
the Python string `"0"`. -/
def codeIsZero : Option Json → Bool
  | some (Json.str s) => s == "0"
  | _ => false

/-- One attempt of the body of `CoinGlassClient.request` (`client.py`
lines 82-108), given the outcome of its `http.get` call:
429/403/401 raise the typed errors (401 raises `APIError`),
`raise_for_status` raises `HTTPStatusError` on any other non-2xx,
then the envelope is unwrapped: `code != "0"` raises `APIError` with the
upstream `msg` (default "Unknown error"), otherwise `data.get("data")`
is returned (`None` when the key is absent). -/
def singleAttempt : HttpResult → Except Exc Json
  | HttpResult.exc e => Except.error e
  | HttpResult.resp status body =>
    if status = 429 then
      Except.error (Exc.rateLimitError
        "Rate limit exceeded. Please wait before making more requests.")
    else if status = 403 then
      Except.error (Exc.planLimitError
        "This feature requires a higher plan. Check your CoinGlass subscription.")
    else if status = 401 then
      Except.error (Exc.apiError
        "Invalid API key. Please check your COINGLASS_API_KEY.")
    else if status < 200 ∨ 300 ≤ status then
      Except.error (Exc.httpStatusError status)
    else if !(codeIsZero (lookup body "code")) then
      Except.error (Exc.apiError ("API error: " ++ msgOf body))
    else
      Except.ok ((lookup body "data").getD Json.null)

/-- The tenacity retry loop produced by
`@retry(stop=stop_after_attempt(3), retry=retry_if_exception(_is_retryable))`
(`client.py` lines 54-58).  `f i` is the outcome of attempt `i`
(0-indexed); `remaining` is the number of attempts the stop condition
still allows.  Tenacity first consults the retry predicate: a
non-retryable exception is re-raised unchanged; a retryable one triggers
the stop check, and on exhaustion a `RetryError` wrapping the last
attempt is raised (the decorator does not set `reraise=True`). -/
def tenacityRun (f : Nat → Except Exc Json) : Nat → Nat → Except Exc Json
  | i, 0 => f i
  | i, r + 1 =>
    match f i with
    | Except.ok v => Except.ok v
    | Except.error e =>
      if is_retryable e then
        if r = 0 then Except.error (Exc.retryError e)
        else tenacityRun f (i + 1) r
      else Except.error e

/-- Number of attempts the retry loop actually makes (same recursion as
`tenacityRun`). -/
def attemptCount (f : Nat → Except Exc Json) : Nat → Nat → Nat
  | _, 0 => 1
  | i, r + 1 =>
    match f i with
    | Except.ok _ => 1
    | Except.error e =>
      if is_retryable e then
        if r = 0 then 1 else 1 + attemptCount f (i + 1) r
      else 1

/-- `CoinGlassClient.request` as seen by its caller: the decorated body run
under tenacity with `stop_after_attempt(3)`, where `rs i` gives the
outcome of the `http.get` call of attempt `i`. -/
def request (rs : Nat → HttpResult) : Except Exc Json :=
  tenacityRun (fun i => singleAttempt (rs i)) 0 3

/-- Number of request attempts `CoinGlassClient.request` makes against the
upstream described by `rs`. -/
def requestAttempts (rs : Nat → HttpResult) : Nat :=
  attemptCount (fun i => singleAttempt (rs i)) 0 3

/-- `client.py` line 80: `{k: v for k, v in (params or {}).items() if v is not None}`. -/
def filtered_params (params : List (String × Json)) : List (String × Json) :=
  params.filter (fun kv => !(isNone kv.2))

/-- The query actually handed to `http.get` (`client.py` lines 80-84):
`None` (no query string) when `params` is omitted or filters to empty,
otherwise the filtered bag.  This runs once per attempt, before the GET. -/
def sentQuery (params : Option (List (String × Json))) : Option (List (String × Json)) :=
  if (filtered_params (params.getD [])).isEmpty then none
  else some (filtered_params (params.getD []))

/-! ### Static configuration tables (`config.py`) -/

/-- `PLAN_HIERARCHY` (`config.py` lines 13-19). -/
def PLAN_HIERARCHY : List (String × Nat) :=
  [("hobbyist", 0), ("startup", 1), ("standard", 2),
   ("professional", 3), ("enterprise", 4)]

/-- `PLAN_INTERVALS` (`config.py` lines 22-28; Python sets modelled as
lists, membership being the only operation used on them). -/
def PLAN_INTERVALS : List (String × List String) :=
  [("hobbyist", ["h4", "h8", "h12", "d1", "w1"]),
   ("startup", ["m30", "h1", "h4", "h8", "h12", "d1", "w1"]),
   ("standard", ["m1", "m5", "m15", "m30", "h1", "h4", "h8", "h12", "d1", "w1"]),
   ("professional", ["m1", "m5", "m15", "m30", "h1", "h4", "h8", "h12", "d1", "w1"]),
   ("enterprise", ["m1", "m5", "m15", "m30", "h1", "h4", "h8", "h12", "d1", "w1"])]

/-- `ACTION_PLAN` (`config.py` lines 40-51). -/
def ACTION_PLAN : List (String × String) :=
  [("orders", "standard"),
   ("pair_heatmap", "professional"), ("coin_heatmap", "professional"),
   ("pair_map", "professional"), ("coin_map", "professional"),
   ("alerts", "startup"), ("positions", "startup"), ("all_positions", "startup")]

/-- `ACTION_PARAMS` (`config.py` lines 54-72). -/
def ACTION_PARAMS : List (String × List String) :=
  [("pair", ["exchange", "pair"]),
   ("aggregated", ["symbol"]), ("stablecoin", ["symbol"]),
   ("coin_margin", ["symbol"]),
   ("by_exchange", ["symbol"]), ("exchange_chart", ["symbol"]),
   ("oi_weighted", ["symbol"]), ("vol_weighted", ["symbol"]),
   ("global", ["exchange", "pair"]), ("top_accounts", ["exchange", "pair"]),
   ("top_positions", ["exchange", "pair"]),
   ("price_history", ["exchange", "pair", "interval"])]

/-! ### Access gate (`server.py` helper functions)

The helpers raise `ValueError` on denial and return `None` on success; we
model them as `Bool` (`true` = the check passes).  The caller plan string
reaches them through the per-request context; here it is an explicit
argument. -/

/-- `PLAN_HIERARCHY.get(p, 0)`: the rank of a plan string, unknown plans
defaulting to rank 0. -/
def rank (p : String) : Nat :=
  (lookup PLAN_HIERARCHY p).getD 0

/-- `check_plan` (`server.py` lines 100-112): passes unless the action has
a registered (truthy) minimum plan and the caller plan ranks strictly
below it, both ranks looked up with default 0. -/
def check_plan (plan action : String) : Bool :=
  match lookup ACTION_PLAN action with
  | none => true
  | some required =>
    if required = "" then true
    else !(decide (rank plan < rank required))

/-- `check_interval` (`server.py` lines 115-127): passes iff the interval
is in `PLAN_INTERVALS.get(plan, set())`. -/
def check_interval (plan interval : String) : Bool :=
  let allowed := (lookup PLAN_INTERVALS plan).getD []
  allowed.contains interval

/-- Python truthiness of a JSON-compatible value (`not kwargs.get(p)` in
`check_params`): `None`, `False`, `0`, `""`, `[]` and `{}` are falsy. -/
def truthy : Json → Bool
  | Json.null => false
  | Json.bool b => b
  | Json.num n => n != 0
  | Json.str s => !s.isEmpty
  | Json.arr xs => !xs.isEmpty
  | Json.obj fs => !fs.isEmpty

/-- `check_params` (`server.py` lines 130-141): passes iff no parameter
name required for the action (`ACTION_PARAMS.get(action, [])`) maps to a
missing or falsy value in the provided bag. -/
def check_params (action : String) (kwargs : List (String × Json)) : Bool :=
  let required := (lookup ACTION_PARAMS action).getD []
  let missing := required.filter (fun p => !(truthy ((lookup kwargs p).getD Json.null)))
  missing.isEmpty

/-- `ok` (`server.py` lines 144-151): the uniform success envelope, with
null-valued metadata entries removed. -/
def ok (action : String) (data : Json) (meta : List (String × Json)) : List (String × Json) :=
  [("success", Json.bool true),
   ("action", Json.str action),
   ("data", data),
   ("metadata", Json.obj (meta.filter (fun kv => !(isNone kv.2))))]

/-! ### Helper lemmas -/

theorem tenacityRun_ok (f : Nat → Except Exc Json) (i r : Nat) (v : Json)
    (h : f i = Except.ok v) : tenacityRun f i r = Except.ok v := by
  cases r with
  | zero => simpa [tenacityRun] using h
  | succ r => simp [tenacityRun, h]

theorem tenacityRun_stop (f : Nat → Except Exc Json) (i r : Nat) (e : Exc)
    (h : f i = Except.error e) (hr : is_retryable e = false) :
    tenacityRun f i r = Except.error e := by
  cases r with
  | zero => simpa [tenacityRun] using h
  | succ r => simp [tenacityRun, h, hr]

theorem attemptCount_one_of_noretry (f : Nat → Except Exc Json) (i r : Nat) (e : Exc)
    (h : f i = Except.error e) (hr : is_retryable e = false) :
    attemptCount f i r = 1 := by
  cases r with
  | zero => simp [attemptCount]
  | succ r => simp [attemptCount, h, hr]

theorem attemptCount_pos (f : Nat → Except Exc Json) (r i : Nat) :
    1 ≤ attemptCount f i r := by
  cases r with
  | zero => simp [attemptCount]
  | succ r =>
    unfold attemptCount
    split
    · omega
    · split
      · split <;> omega
      · omega

theorem attemptCount_le_succ (f : Nat → Except Exc Json) :
    ∀ r i, attemptCount f i (r + 1) ≤ r + 1 := by
  intro r
  induction r with
  | zero =>
    intro i
    unfold attemptCount
    split
    · omega
    · split
      · split <;> omega
      · omega
  | succ r ih =>
    intro i
    unfold attemptCount
    split
    · omega
    · split
      · split
        · omega
        · have := ih (i + 1)
          omega
      · omega

theorem request_of_attempt_ok (rs : Nat → HttpResult) (v : Json)
    (h : singleAttempt (rs 0) = Except.ok v) : request rs = Except.ok v :=
  tenacityRun_ok _ 0 3 v h

theorem request_of_attempt_noretry (rs : Nat → HttpResult) (e : Exc)
    (h : singleAttempt (rs 0) = Except.error e) (hr : is_retryable e = false) :
    request rs = Except.error e :=
  tenacityRun_stop _ 0 3 e h hr

theorem requestAttempts_of_noretry (rs : Nat → HttpResult) (e : Exc)
    (h : singleAttempt (rs 0) = Except.error e) (hr : is_retryable e = false) :
    requestAttempts rs = 1 :=
  attemptCount_one_of_noretry _ 0 3 e h hr

theorem singleAttempt_2xx (status : Nat) (body : List (String × Json))
    (h1 : 200 ≤ status) (h2 : status < 300) :
    singleAttempt (HttpResult.resp status body)
      = if codeIsZero (lookup body "code")
          then Except.ok ((lookup body "data").getD Json.null)
          else Except.error (Exc.apiError ("API error: " ++ msgOf body)) := by
  simp only [singleAttempt]
  rw [if_neg (by omega), if_neg (by omega), if_neg (by omega), if_neg (by omega)]
  cases hc : codeIsZero (lookup body "code") <;> simp [hc]

theorem lookup_eq_of_mem {α : Type} (l : List (String × α)) (k : String) (v : α)
    (hnd : (l.map Prod.fst).Nodup) (hmem : (k, v) ∈ l) : lookup l k = some v := by
  induction l with
  | nil => cases hmem
  | cons kv t ih =>
    obtain ⟨k2, v2⟩ := kv
    rw [List.map_cons, List.nodup_cons] at hnd
    cases List.mem_cons.mp hmem with
    | inl heq =>
      cases heq
      simp [lookup]
    | inr htail =>
      have hk2 : k2 ≠ k := by
        intro hkk
        subst hkk
        exact hnd.1 (List.mem_map.mpr ⟨(k2, v), htail, rfl⟩)
      simp only [lookup, if_neg hk2]
      exact ih hnd.2 htail

theorem mem_sentQuery {params : Option (List (String × Json))} {kv : String × Json}
    (h : kv ∈ (sentQuery params).getD []) :
    kv ∈ filtered_params (params.getD []) := by
  by_cases hc : (filtered_params (params.getD [])).isEmpty
  · simp [sentQuery, hc] at h
  · simpa [sentQuery, hc] using h

theorem check_interval_iff_mem (plan interval : String) :
    check_interval plan interval = true ↔
      interval ∈ (lookup PLAN_INTERVALS plan).getD [] := by
  unfold check_interval
  exact List.elem_iff

/-! ### Claim theorems -/

/-- Claim C5: `check_interval` passes iff the interval belongs to the caller
tier's statically registered interval set; a tier absent from the registry
has the empty permitted set and fails for every interval; tier "hobbyist"
rejects "m5" and accepts "h4", while tier "standard" accepts both. -/
theorem C5_check_interval_correct :
    (∀ plan interval, check_interval plan interval = true ↔
      ∃ s, lookup PLAN_INTERVALS plan = some s ∧ interval ∈ s)
    ∧ (∀ plan, lookup PLAN_INTERVALS plan = none →
        ∀ interval, check_interval plan interval = false)
    ∧ check_interval "hobbyist" "m5" = false
    ∧ check_interval "hobbyist" "h4" = true
    ∧ check_interval "standard" "m5" = true
    ∧ check_interval "standard" "h4" = true := by
  refine ⟨fun plan interval => ?_, fun plan h interval => ?_,
    by decide, by decide, by decide, by decide⟩
  · rw [check_interval_iff_mem]
    cases h : lookup PLAN_INTERVALS plan with
    | none => simp [h]
    | some s => simp [h]
  · unfold check_interval
    simp [h]

theorem C5_witness :
    check_interval "not_a_plan" "h4" = false ∧ check_interval "hobbyist" "h4" = true :=
  ⟨C5_check_interval_correct.2.1 "not_a_plan" (by decide) "h4",
   C5_check_interval_correct.2.2.2.1⟩

/-- Claim C6: for an action with a registered minimum plan, `check_plan`
passes iff the caller tier's rank is at least the minimum's rank (the
action "orders" requiring "standard" rejects "hobbyist" and accepts
"professional"); an action with no registered minimum always passes. -/
theorem C6_check_plan_correct :
    (∀ plan action required, lookup ACTION_PLAN action = some required →
      (check_plan plan action = true ↔ rank required ≤ rank plan))
    ∧ (∀ plan action, lookup ACTION_PLAN action = none →
        check_plan plan action = true)
    ∧ check_plan "hobbyist" "orders" = false
    ∧ check_plan "professional" "orders" = true := by
  refine ⟨fun plan action required h => ?_, fun plan action h => ?_,
    by decide, by decide⟩
  · unfold check_plan
    rw [h]
    show (if required = "" then true
      else !decide (rank plan < rank required)) = true ↔ rank required ≤ rank plan
    by_cases hreq : required = ""
    · subst hreq
      have h0 : rank "" = 0 := by decide
      simp [h0]
    · rw [if_neg hreq]
      simp [Nat.not_lt]
  · simp [check_plan, h]

theorem C6_witness : check_plan "professional" "orders" = true :=
  (C6_check_plan_correct.1 "professional" "orders" "standard" (by decide)).mpr
    (by decide)

/-- Claim C7: `check_params` fails iff some name in the action's registered
required list maps to a missing or falsy value (absence, the empty string
and the numeral zero are all falsy); an action with no registered
requirement list always passes; the action "pair", which requires
exchange and pair, fails when pair is omitted even with exchange present. -/
theorem C7_check_params_correct :
    (∀ action kwargs required, lookup ACTION_PARAMS action = some required →
      (check_params action kwargs = false ↔
        ∃ p, p ∈ required ∧ truthy ((lookup kwargs p).getD Json.null) = false))
    ∧ (∀ action kwargs, lookup ACTION_PARAMS action = none →
        check_params action kwargs = true)
    ∧ truthy Json.null = false
    ∧ truthy (Json.str "") = false
    ∧ truthy (Json.num 0) = false
    ∧ check_params "pair" [("exchange", Json.str "binance")] = false := by
  refine ⟨fun action kwargs required h => ?_, fun action kwargs h => ?_,
    by decide, by decide, by decide, by decide⟩
  · unfold check_params
    rw [h]
    simp [List.isEmpty_eq_false, List.filter_eq_nil_iff]
  · simp [check_params, h]

theorem C7_witness : check_params "pair" [("exchange", Json.str "binance")] = false :=
  (C7_check_params_correct.1 "pair" [("exchange", Json.str "binance")]
      ["exchange", "pair"] (by decide)).mpr
    ⟨"pair", by decide, by decide⟩

/-- Claim C8: the success envelope built by `ok` carries `success = true`,
the given action name, the given payload under `data`, and a metadata
object equal to the supplied metadata with every null-valued entry
removed — so the metadata of a successful result never contains a
null-valued field. -/
theorem C8_ok_correct :
    ∀ action data meta,
      lookup (ok action data meta) "success" = some (Json.bool true)
      ∧ lookup (ok action data meta) "action" = some (Json.str action)
      ∧ lookup (ok action data meta) "data" = some data
      ∧ lookup (ok action data meta) "metadata"
          = some (Json.obj (meta.filter (fun kv => !(isNone kv.2))))
      ∧ (∀ k v, (k, v) ∈ meta.filter (fun kv => !(isNone kv.2)) → v ≠ Json.null) := by
  intro action data meta
  refine ⟨by simp [ok, lookup], by simp [ok, lookup], by simp [ok, lookup],
    by simp [ok, lookup], fun k v hmem => ?_⟩
  have hv := (List.mem_filter.mp hmem).2
  intro hnull
  rw [hnull] at hv
  simp [isNone] at hv

theorem C8_witness : Json.num 2 ≠ Json.null :=
  (C8_ok_correct "coins" (Json.arr [])
      [("count", Json.num 2), ("echo", Json.null)]).2.2.2.2 "count" (Json.num 2)
    (by simp [isNone])

/-- Claim C9: a caller plan string outside the hierarchy receives rank 0
(the lowest rank) instead of being rejected outright, so it is denied
every action whose registered minimum has positive rank and allowed every
action with no registered minimum. -/
theorem C9_unknown_plan_rank_zero :
    ∀ plan, lookup PLAN_HIERARCHY plan = none →
      rank plan = 0
      ∧ (∀ action required, lookup ACTION_PLAN action = some required →
          0 < rank required → check_plan plan action = false)
      ∧ (∀ action, lookup ACTION_PLAN action = none →
          check_plan plan action = true) := by
  intro plan h
  have hrank : rank plan = 0 := by simp [rank, h]
  refine ⟨hrank, fun action required hreq hpos => ?_, fun action hnone => ?_⟩
  · have hne : required ≠ "" := by
      intro hemp
      rw [hemp] at hpos
      have h0 : rank "" = 0 := by decide
      omega
    unfold check_plan
    rw [hreq]
    show (if required = "" then true
      else !decide (rank plan < rank required)) = false
    rw [if_neg hne]
    simp [hrank, hpos]
  · simp [check_plan, hnone]

theorem C9_witness : check_plan "free" "orders" = false :=
  (C9_unknown_plan_rank_zero "free" (by decide)).2.1 "orders" "standard"
    (by decide) (by decide)

/-- Claim C10: the registered interval sets are monotone in the plan order
(lower rank implies subset), so an interval allowed for a plan is allowed
for every registered plan of equal or higher rank. -/
theorem C10_intervals_monotone :
    ∀ p, p ∈ PLAN_INTERVALS.map Prod.fst →
    ∀ q, q ∈ PLAN_INTERVALS.map Prod.fst →
      rank p ≤ rank q →
      ((lookup PLAN_INTERVALS p).getD [] ⊆ (lookup PLAN_INTERVALS q).getD [])
      ∧ (∀ i, check_interval p i = true → check_interval q i = true) := by
  have hsub : ∀ p ∈ PLAN_INTERVALS.map Prod.fst, ∀ q ∈ PLAN_INTERVALS.map Prod.fst,
      rank p ≤ rank q →
      ∀ i ∈ (lookup PLAN_INTERVALS p).getD [], i ∈ (lookup PLAN_INTERVALS q).getD [] := by
    decide
  intro p hp q hq hrank
  refine ⟨fun i hi => hsub p hp q hq hrank i hi, fun i hi => ?_⟩
  rw [check_interval_iff_mem] at hi ⊢
  exact hsub p hp q hq hrank i hi

theorem C10_witness : check_interval "startup" "h4" = true :=
  (C10_intervals_monotone "hobbyist" (by decide) "startup" (by decide)
      (by decide)).2 "h4" (by decide)

/-- Claim C1 counterexample: with every attempt timing out, the error that
escapes `request` is a tenacity `RetryError` wrapping the last timeout — a
different exception kind — not the last failure unchanged. -/
theorem C1_counterexample_retry_wraps :
    request (fun _ => HttpResult.exc Exc.timeoutException)
      = Except.error (Exc.retryError Exc.timeoutException)
    ∧ Exc.kind (Exc.retryError Exc.timeoutException) ≠ Exc.kind Exc.timeoutException :=
  ⟨rfl, by decide⟩

/-- Claim C1 (amended): for retryable failures `request` retries with at
most 3 total attempts; when all three attempts fail retryably, exactly 3
attempts are made and the escaping error is a tenacity `RetryError`
wrapping the last failure (the decorator does not set `reraise=True`, so
the last failure does not propagate unchanged). -/
theorem C1_retry_behavior :
    (∀ rs, requestAttempts rs ≤ 3)
    ∧ (∀ rs e, singleAttempt (rs 0) = Except.error e → is_retryable e = true →
        2 ≤ requestAttempts rs)
    ∧ (∀ rs, (∀ i, i < 3 → ∃ e, singleAttempt (rs i) = Except.error e ∧
          is_retryable e = true) →
        requestAttempts rs = 3
        ∧ ∃ e2, singleAttempt (rs 2) = Except.error e2
            ∧ request rs = Except.error (Exc.retryError e2)) := by
  refine ⟨fun rs => attemptCount_le_succ _ 2 0, fun rs e he hr => ?_, fun rs h => ?_⟩
  · unfold requestAttempts
    unfold attemptCount
    simp only [he, hr, if_true]
    rw [if_neg (by omega)]
    have h2 := attemptCount_pos (fun i => singleAttempt (rs i)) 2 (0 + 1)
    omega
  · obtain ⟨e0, he0, hr0⟩ := h 0 (by omega)
    obtain ⟨e1, he1, hr1⟩ := h 1 (by omega)
    obtain ⟨e2, he2, hr2⟩ := h 2 (by omega)
    refine ⟨?_, e2, he2, ?_⟩
    · unfold requestAttempts
      simp [attemptCount, he0, hr0, he1, hr1, he2, hr2]
    · unfold request
      simp [tenacityRun, he0, hr0, he1, hr1, he2, hr2]

theorem C1_witness :
    requestAttempts (fun _ => HttpResult.exc Exc.connectError) = 3
    ∧ ∃ e, singleAttempt (HttpResult.exc Exc.connectError) = Except.error e
        ∧ request (fun _ => HttpResult.exc Exc.connectError)
            = Except.error (Exc.retryError e) :=
  C1_retry_behavior.2.2 (fun _ => HttpResult.exc Exc.connectError)
    (fun _ _ => ⟨Exc.connectError, rfl, rfl⟩)

/-- Claim C2 counterexample: a 401 response makes `request` fail with
`APIError` — the same exception class as the generic application failure
raised for a non-zero envelope code — not a distinct
authentication-failure kind. -/
theorem C2_counterexample_401_same_kind :
    request (fun _ => HttpResult.resp 401 [])
      = Except.error (Exc.apiError
          "Invalid API key. Please check your COINGLASS_API_KEY.")
    ∧ request (fun _ => HttpResult.resp 200 [("code", Json.str "1")])
      = Except.error (Exc.apiError "API error: Unknown error")
    ∧ Exc.kind (Exc.apiError
          "Invalid API key. Please check your COINGLASS_API_KEY.")
      = Exc.kind (Exc.apiError "API error: Unknown error") :=
  ⟨rfl, rfl, rfl⟩

/-- Claim C2 (amended): responses with status 429, 403 or 401 cause exactly
one attempt and no retry; 429 raises the distinct rate-limit error, 403
the distinct plan-limit error, and 401 raises `APIError` with an
invalid-key message — the same exception kind as the generic API failure,
not a distinct one. -/
theorem C2_no_retry_typed_errors :
    (∀ rs body, rs 0 = HttpResult.resp 429 body →
      request rs = Except.error (Exc.rateLimitError
        "Rate limit exceeded. Please wait before making more requests.")
      ∧ requestAttempts rs = 1)
    ∧ (∀ rs body, rs 0 = HttpResult.resp 403 body →
      request rs = Except.error (Exc.planLimitError
        "This feature requires a higher plan. Check your CoinGlass subscription.")
      ∧ requestAttempts rs = 1)
    ∧ (∀ rs body, rs 0 = HttpResult.resp 401 body →
      request rs = Except.error (Exc.apiError
        "Invalid API key. Please check your COINGLASS_API_KEY.")
      ∧ requestAttempts rs = 1)
    ∧ ExcKind.rateLimit ≠ ExcKind.planLimit
    ∧ ExcKind.rateLimit ≠ ExcKind.api
    ∧ ExcKind.planLimit ≠ ExcKind.api := by
  refine ⟨fun rs body h => ?_, fun rs body h => ?_,
    fun rs body h => ?_, by decide, by decide, by decide⟩
  · have hsa : singleAttempt (rs 0) = Except.error (Exc.rateLimitError
        "Rate limit exceeded. Please wait before making more requests.") := by
      rw [h]; rfl
    exact ⟨request_of_attempt_noretry rs _ hsa rfl,
      requestAttempts_of_noretry rs _ hsa rfl⟩
  · have hsa : singleAttempt (rs 0) = Except.error (Exc.planLimitError
        "This feature requires a higher plan. Check your CoinGlass subscription.") := by
      rw [h]; rfl
    exact ⟨request_of_attempt_noretry rs _ hsa rfl,
      requestAttempts_of_noretry rs _ hsa rfl⟩
  · have hsa : singleAttempt (rs 0) = Except.error (Exc.apiError
        "Invalid API key. Please check your COINGLASS_API_KEY.") := by
      rw [h]; rfl
    exact ⟨request_of_attempt_noretry rs _ hsa rfl,
      requestAttempts_of_noretry rs _ hsa rfl⟩

theorem C2_witness :
    request (fun _ => HttpResult.resp 429 []) = Except.error (Exc.rateLimitError
      "Rate limit exceeded. Please wait before making more requests.")
    ∧ requestAttempts (fun _ => HttpResult.resp 429 []) = 1 :=
  C2_no_retry_typed_errors.1 (fun _ => HttpResult.resp 429 []) [] rfl

/-- Claim C3: null-valued parameters are stripped before the query string
is built (with unique keys, a null-valued key never reaches the wire), and
a bag that filters to empty is sent with no query at all — the same as
omitting params entirely. -/
theorem C3_param_filtering :
    (∀ params k v, (k, v) ∈ (sentQuery params).getD [] → v ≠ Json.null)
    ∧ (∀ params k, (params.map Prod.fst).Nodup →
        lookup params k = some Json.null →
        ∀ v, (k, v) ∉ (sentQuery (some params)).getD [])
    ∧ (∀ params, filtered_params params = [] →
        sentQuery (some params) = sentQuery none)
    ∧ sentQuery none = none
    ∧ sentQuery (some [("symbol", Json.str "BTC"), ("exchange", Json.null)])
        = some [("symbol", Json.str "BTC")] := by
  have hmem : ∀ (params : Option (List (String × Json))) k v,
      (k, v) ∈ (sentQuery params).getD [] → v ≠ Json.null := by
    intro params k v h hnull
    have hf := (List.mem_filter.mp (mem_sentQuery h)).2
    rw [hnull] at hf
    simp [isNone] at hf
  refine ⟨hmem, fun params k hnd hl v hv => ?_, fun params h => ?_, rfl, rfl⟩
  · have hp : (k, v) ∈ params := (List.mem_filter.mp (mem_sentQuery hv)).1
    have : lookup params k = some v := lookup_eq_of_mem params k v hnd hp
    rw [hl] at this
    exact hmem (some params) k v hv (by injection this with h2; rw [h2])
  · have h0 : filtered_params ([] : List (String × Json)) = [] := rfl
    simp [sentQuery, h, h0]

theorem C3_witness :
    ("exchange", Json.null)
      ∉ (sentQuery (some [("symbol", Json.str "BTC"),
          ("exchange", Json.null)])).getD [] :=
  C3_param_filtering.2.1 [("symbol", Json.str "BTC"), ("exchange", Json.null)]
    "exchange" (by decide) rfl Json.null

/-- Claim C4: on a 2xx response, an envelope with code "0" yields exactly
its data field (any JSON value; a missing data key yields null, the Python
`None`); any other code yields an `APIError` carrying the upstream msg, or
"Unknown error" when msg is absent, in a single attempt with no value
returned. -/
theorem C4_envelope_unwrap :
    ∀ status body, 200 ≤ status → status < 300 →
      (∀ x, codeIsZero (lookup body "code") = true → lookup body "data" = some x →
        request (fun _ => HttpResult.resp status body) = Except.ok x)
      ∧ (codeIsZero (lookup body "code") = true → lookup body "data" = none →
        request (fun _ => HttpResult.resp status body) = Except.ok Json.null)
      ∧ (codeIsZero (lookup body "code") = false →
        request (fun _ => HttpResult.resp status body)
            = Except.error (Exc.apiError ("API error: " ++ msgOf body))
        ∧ requestAttempts (fun _ => HttpResult.resp status body) = 1)
      ∧ (∀ m, lookup body "msg" = some (Json.str m) → msgOf body = m)
      ∧ (lookup body "msg" = none → msgOf body = "Unknown error") := by
  intro status body h1 h2
  have hs := singleAttempt_2xx status body h1 h2
  refine ⟨fun x hc hd => ?_, fun hc hd => ?_, fun hc => ?_,
    fun m hm => ?_, fun hm => ?_⟩
  · exact request_of_attempt_ok _ x (by rw [hs, if_pos hc, hd]; rfl)
  · exact request_of_attempt_ok _ Json.null (by rw [hs, if_pos hc, hd]; rfl)
  · have hsa : singleAttempt (HttpResult.resp status body)
        = Except.error (Exc.apiError ("API error: " ++ msgOf body)) := by
      rw [hs, if_neg (by rw [hc]; exact Bool.false_ne_true)]
    exact ⟨request_of_attempt_noretry _ _ hsa rfl,
      requestAttempts_of_noretry _ _ hsa rfl⟩
  · unfold msgOf
    rw [hm]
    rfl
  · unfold msgOf
    rw [hm]

theorem C4_witness :
    request (fun _ => HttpResult.resp 200
        [("code", Json.str "0"),
         ("data", Json.arr [Json.obj [("symbol", Json.str "BTC")]])])
      = Except.ok (Json.arr [Json.obj [("symbol", Json.str "BTC")]]) :=
  (C4_envelope_unwrap 200 _ (by omega) (by omega)).1 _ rfl rfl

end CoinGlass
